import Mathlib

/-!
Verification of the access-code / credit-accounting core of
`src/main.py` (Strategic Account Intelligence Agent).

The program is a Streamlit app over the Replit key-value store.  We give a
shallow embedding of its pure core:

* `PyDateTime` models a timezone-aware Python `datetime` as a proleptic
  Gregorian ordinal (`datetime.toordinal`, day 1 = 0001-01-01) plus wall
  clock fields.  The whole program uses the single zone
  `America/New_York`, arithmetic (`+ timedelta(days=…)`, `.replace`) is
  wall-clock arithmetic, and comparisons between values of that one zone
  agree with wall-clock comparison, so ordinals plus time-of-day are a
  faithful model.
* `isocalendar`, `isoweekday`, `yearOfOrd` transcribe CPython's
  `datetime._ord2ymd` / `_isoweek1monday` / `date.isocalendar`
  algorithms, with Python's floor division rendered as `Int.ediv`
  (identical for the positive divisors used here).
* `ISOString` models the ISO-format date strings the program stores:
  `datetime.isoformat` round-trips through `datetime.fromisoformat`, so a
  string produced by `to_iso` is modelled by the datetime it denotes, and
  any other (possibly malformed) string by `ISOString.other`, which
  `parse_iso` rejects.
* `DB` models the key-value store, split by the three disjoint key
  namespaces the verified operations touch (`user:…`, `code:…`,
  `history:…`; the `cache:…` namespace is only read/written opaquely
  inside the agent run and no operation verified here inspects it).
  History payloads are opaque (`α`).
* Each Python function becomes a state-passing Lean function; "now"
  (`now_et()`) and the random token (`secrets.token_hex`) become explicit
  parameters.
-/

/-! ## Calendar arithmetic (CPython `datetime` internals) -/

/-- `_is_leap` from CPython `datetime`. -/
def isLeapYear (y : Int) : Bool :=
  y % 4 == 0 && (y % 100 != 0 || y % 400 == 0)

/-- `_days_before_year` from CPython `datetime`: number of days before
January 1st of `y` in the proleptic Gregorian calendar. -/
def daysBeforeYear (y : Int) : Int :=
  (y - 1) * 365 + (y - 1) / 4 - (y - 1) / 100 + (y - 1) / 400

/-- The year part of CPython's `_ord2ymd`: the Gregorian year containing
proleptic ordinal `ord`. -/
def yearOfOrd (ord : Int) : Int :=
  let n := ord - 1
  let n400 := n / 146097
  let n := n % 146097
  let n100 := n / 36524
  let n := n % 36524
  let n4 := n / 1461
  let n := n % 1461
  let n1 := n / 365
  let year := n400 * 400 + n100 * 100 + n4 * 4 + n1 + 1
  if n1 == 4 || n100 == 4 then year - 1 else year

/-- `_isoweek1monday` from CPython `datetime`: the ordinal of the Monday
starting ISO week 1 of `year`. -/
def isoweek1monday (year : Int) : Int :=
  let firstday := daysBeforeYear year + 1
  let firstweekday := (firstday + 6) % 7
  let week1monday := firstday - firstweekday
  if firstweekday > 3 then week1monday + 7 else week1monday

/-- A timezone-aware Python `datetime` in the program's single zone:
proleptic Gregorian ordinal (`toordinal`) plus wall-clock time of day. -/
structure PyDateTime where
  ord : Int
  hour : Int
  minute : Int
  second : Int
  microsecond : Int
  deriving Repr, DecidableEq

/-- Python's range invariants on the time fields of a `datetime`. -/
def PyDateTime.validTime (dt : PyDateTime) : Prop :=
  0 ≤ dt.hour ∧ dt.hour < 24 ∧ 0 ≤ dt.minute ∧ dt.minute < 60 ∧
  0 ≤ dt.second ∧ dt.second < 60 ∧
  0 ≤ dt.microsecond ∧ dt.microsecond < 1000000

instance (dt : PyDateTime) : Decidable dt.validTime := by
  unfold PyDateTime.validTime; infer_instance

/-- `datetime.isoweekday()`: Monday = 1 … Sunday = 7. -/
def isoweekday (dt : PyDateTime) : Int :=
  (dt.ord + 6) % 7 + 1

/-- `date.isocalendar()` (CPython algorithm) on a proleptic ordinal:
ISO (year, week, weekday). -/
def isocalendarOrd (today : Int) : Int × Int × Int :=
  let year := yearOfOrd today
  let week1monday := isoweek1monday year
  let week := (today - week1monday) / 7
  let day := (today - week1monday) % 7
  if week < 0 then
    let year := year - 1
    let w1m := isoweek1monday year
    (year, (today - w1m) / 7 + 1, (today - w1m) % 7 + 1)
  else if week ≥ 52 && today ≥ isoweek1monday (year + 1) then
    (year + 1, 1, day + 1)
  else
    (year, week + 1, day + 1)

/-- `date.isocalendar()` of a datetime (it depends only on the date's
ordinal). -/
def isocalendar (dt : PyDateTime) : Int × Int × Int :=
  isocalendarOrd dt.ord

/-- Wall-clock `datetime` comparison (`<`), as a Bool: lexicographic on
(date, time-of-day).  Aware datetimes in one fixed zone compare this way
except across a DST transition lying between the two instants; no claim
verified here exercises that window. -/
def dtLt (a b : PyDateTime) : Bool :=
  a.ord < b.ord ||
    (a.ord == b.ord &&
      (a.hour < b.hour ||
        (a.hour == b.hour &&
          (a.minute < b.minute ||
            (a.minute == b.minute &&
              (a.second < b.second ||
                (a.second == b.second && a.microsecond < b.microsecond)))))))

/-- Wall-clock `datetime` comparison (`≤`), as a Bool. -/
def dtLe (a b : PyDateTime) : Bool :=
  a == b || dtLt a b

/-! ## Time helpers of `main.py` -/

/-- Two-digit decimal rendering of `{w:02d}` for `0 ≤ w`. -/
def pad2 (w : Int) : String :=
  if w < 10 then "0" ++ toString w else toString w

/-- `iso_week_id` from `main.py`: the string `f"{y}W{w:02d}"` for
`(y, w, _) = dt.isocalendar()`. -/
def iso_week_id (dt : PyDateTime) : String :=
  let yw := isocalendar dt
  toString yw.1 ++ "W" ++ pad2 yw.2.1

/-- `week_expiry_sunday_235959` from `main.py`:
`dt + timedelta(days=7-dt.isoweekday())` with the time replaced by
23:59:59.000000. -/
def week_expiry_sunday_235959 (dt : PyDateTime) : PyDateTime :=
  let days_to_sun := 7 - isoweekday dt
  { ord := dt.ord + days_to_sun,
    hour := 23, minute := 59, second := 59, microsecond := 0 }

/-- An ISO-format date string as stored in the key-value store.
`datetime.isoformat` round-trips through `fromisoformat`, so strings
written by `to_iso` are modelled by their datetime; `ISOString.other`
stands for every string not produced by `to_iso` (possibly malformed). -/
inductive ISOString where
  | ofDateTime (dt : PyDateTime)
  | other (s : String)
  deriving Repr, DecidableEq

/-- `to_iso` from `main.py` (`dt.isoformat()`). -/
def to_iso (dt : PyDateTime) : ISOString :=
  ISOString.ofDateTime dt

/-- `parse_iso` from `main.py` (`datetime.fromisoformat`); `none` models
the exception raised on a malformed string. -/
def parse_iso : ISOString → Option PyDateTime
  | ISOString.ofDateTime dt => some dt
  | ISOString.other _ => none

/-! ## String helpers (`str.lower`, `str.strip`) -/

/-- Python `str.lower`, for the ASCII emails/codes the program handles
(character-wise ASCII lowercasing).  Defined over the character list so
it computes by kernel reduction. -/
def pyLower (s : String) : String :=
  String.mk (s.data.map Char.toLower)

/-- Python `str.strip`: remove leading and trailing whitespace. -/
def pyStrip (s : String) : String :=
  String.mk
    (((s.data.dropWhile Char.isWhitespace).reverse.dropWhile
        Char.isWhitespace).reverse)

/-! ## Data model and key-value store -/

/-- `DEFAULT_FREE_CREDITS` from `main.py`. -/
def DEFAULT_FREE_CREDITS : Int := 2

/-- The `CodeRecord` dataclass / the `code:…` dicts of `main.py`. -/
structure CodeRec where
  code : String
  email : String
  tier : String
  week_id : String
  expires_at : ISOString
  created_at : ISOString
  deriving Repr, DecidableEq

/-- The `UserRecord` dataclass / the `user:…` dicts of `main.py`. -/
structure UserRec where
  email : String
  credits : Int
  tier : String
  created_at : ISOString
  last_login : ISOString
  deriving Repr, DecidableEq

/-- The Replit key-value store, split by the three key namespaces the
verified operations use (the namespaces are disjoint by prefix, so one
map per namespace is equivalent to the single Python `db`).  `α` is the
type of (opaque) history payloads. -/
structure DB (α : Type) where
  users : String → Option UserRec
  codes : String → Option CodeRec
  histories : String → Option (List α)

/-- `db[key] = value` restricted to one namespace map. -/
def store {β : Type} (m : String → Option β) (k : String) (v : β) :
    String → Option β :=
  fun q => if q = k then some v else m q

/-- `k_user` from `main.py`: `f"user:{email.strip().lower()}"`. -/
def k_user (email : String) : String :=
  "user:" ++ pyLower (pyStrip email)

/-- `k_code` from `main.py`: `f"code:{code.strip()}"`. -/
def k_code (code : String) : String :=
  "code:" ++ pyStrip code

/-- `k_history` from `main.py`: `f"history:{email.strip().lower()}"`. -/
def k_history (email : String) : String :=
  "history:" ++ pyLower (pyStrip email)

/-! ## DB operations (`main.py`) — state-passing translations.
`now_et()` becomes an explicit `now : PyDateTime` parameter. -/

/-- `ensure_user` from `main.py`.  Returns the `UserRecord` read back from
the store together with the updated store. -/
def ensure_user {α : Type} (email tier : String) (now : PyDateTime)
    (db : DB α) : UserRec × DB α :=
  let key := k_user email
  let nowS := to_iso now
  match db.users key with
  | none =>
    let r : UserRec :=
      { email := pyLower email, credits := DEFAULT_FREE_CREDITS,
        tier := tier, created_at := nowS, last_login := nowS }
    (r, { db with users := store db.users key r })
  | some r0 =>
    let r1 := { r0 with last_login := nowS }
    let r2 := if tier ≠ "" ∧ r1.tier = "" then { r1 with tier := tier } else r1
    (r2, { db with users := store db.users key r2 })

/-- `update_user_credits` from `main.py`. -/
def update_user_credits {α : Type} (email : String) (new_credits : Int)
    (now : PyDateTime) (db : DB α) : DB α :=
  let key := k_user email
  let r0 : UserRec :=
    match db.users key with
    | none =>
      { email := pyLower email, credits := new_credits, tier := "general",
        created_at := to_iso now, last_login := to_iso now }
    | some r => r
  let r1 := { r0 with credits := new_credits }
  { db with users := store db.users key r1 }

/-- `decrement_credit` from `main.py`: clamps at 0, stores, and returns
the new balance. -/
def decrement_credit {α : Type} (email : String) (now : PyDateTime)
    (db : DB α) : Int × DB α :=
  let key := k_user email
  let r0 : UserRec :=
    match db.users key with
    | none =>
      { email := pyLower email, credits := DEFAULT_FREE_CREDITS,
        tier := "general", created_at := to_iso now, last_login := to_iso now }
    | some r => r
  let r1 := { r0 with credits := max 0 (r0.credits - 1) }
  (r1.credits, { db with users := store db.users key r1 })

/-- `save_history` from `main.py`: push the payload at the front, keep the
first 25 entries. -/
def save_history {α : Type} (email : String) (payload : α) (db : DB α) :
    DB α :=
  let key := k_history email
  let hist := (db.histories key).getD []
  let hist := (payload :: hist).take 25
  { db with histories := store db.histories key hist }

/-- `get_history` from `main.py`. -/
def get_history {α : Type} (email : String) (db : DB α) : List α :=
  (db.histories (k_history email)).getD []

/-- `create_code_for_email` from `main.py`.  The random token
(`secrets.token_hex(3).upper()`) is an explicit parameter. -/
def create_code_for_email {α : Type} (email tier : String)
    (now : PyDateTime) (token : String) (db : DB α) : CodeRec × DB α :=
  let week_id := iso_week_id now
  let expires := week_expiry_sunday_235959 now
  let pfx := if tier = "recruiter" then "REC"
             else if tier = "vip" then "VIP" else "GEN"
  let code := pfx ++ "-" ++ week_id ++ "-" ++ token
  let r : CodeRec :=
    { code := code, email := pyStrip (pyLower email), tier := tier,
      week_id := week_id, expires_at := to_iso expires,
      created_at := to_iso now }
  (r, { db with codes := store db.codes (k_code code) r })

/-- `SEED_CODES` from `main.py`, in dict insertion order, as
(code, tier) pairs. -/
def SEED_CODES : List (String × String) :=
  [("REC-2026W02-7H3Q9A", "recruiter"),
   ("REC-2026W02-N4D2KP", "recruiter"),
   ("REC-2026W02-V8M1TZ", "recruiter"),
   ("GEN-2026W02-2J9L4C", "general"),
   ("GEN-2026W02-Q6R7W3", "general"),
   ("GEN-2026W02-X1P8FS", "general"),
   ("VIP-2026W02-5K2Y9N", "vip"),
   ("VIP-2026W02-H7T1RD", "vip"),
   ("VIP-2026W02-M3C6UZ", "vip")]

/-- The loop body of `seed_demo_codes_if_missing`: skip codes whose key is
already in the store, otherwise create the unbound record. -/
def seedStep {α : Type} (week_id : String) (expires now : PyDateTime)
    (acc : Nat × DB α) (p : String × String) : Nat × DB α :=
  let key := k_code p.1
  match acc.2.codes key with
  | some _ => acc
  | none =>
    let r : CodeRec :=
      { code := p.1, email := "", tier := p.2, week_id := week_id,
        expires_at := to_iso expires, created_at := to_iso now }
    (acc.1 + 1, { acc.2 with codes := store acc.2.codes key r })

/-- `seed_demo_codes_if_missing` from `main.py`: returns
(created count, week id, expiry string) and the updated store. -/
def seed_demo_codes_if_missing {α : Type} (now : PyDateTime) (db : DB α) :
    (Nat × String × ISOString) × DB α :=
  let week_id := iso_week_id now
  let expires := week_expiry_sunday_235959 now
  let r := SEED_CODES.foldl (seedStep week_id expires now) (0, db)
  ((r.1, week_id, to_iso expires), r.2)

/-- `bind_unbound_code_to_email` from `main.py`. -/
def bind_unbound_code_to_email {α : Type} (code email : String)
    (db : DB α) : (Bool × String) × DB α :=
  let key := k_code code
  match db.codes key with
  | none => ((false, "Code not found."), db)
  | some r =>
    if r.email ≠ "" then
      ((false, "Code already bound to an email."), db)
    else
      let r1 := { r with email := pyStrip (pyLower email) }
      ((true, "Bound successfully."), { db with codes := store db.codes key r1 })

/-- The result of `validate_login_code`: Python returns `(False, msg)` or
`(True, rec)`. -/
inductive ValidateResult where
  | failure (msg : String)
  | success (r : CodeRec)
  deriving Repr, DecidableEq

/-- `true` iff the result is a `(False, msg)` pair. -/
def ValidateResult.isFailure : ValidateResult → Bool
  | ValidateResult.failure _ => true
  | ValidateResult.success _ => false

/-- `validate_login_code` from `main.py`. -/
def validate_login_code {α : Type} (email code : String)
    (now : PyDateTime) (db : DB α) : ValidateResult × DB α :=
  let email := pyStrip (pyLower email)
  let code := pyStrip code
  match db.codes (k_code code) with
  | none => (ValidateResult.failure "Invalid code.", db)
  | some r =>
    let current_week := iso_week_id now
    if r.week_id ≠ current_week then
      (ValidateResult.failure "Code expired (week changed). Request a new code.", db)
    else
      match parse_iso r.expires_at with
      | none =>
        (ValidateResult.failure "Code expiry is malformed. Ask the owner for a new code.", db)
      | some exp =>
        if dtLt exp now then
          (ValidateResult.failure "Code expired (time window ended). Request a new code.", db)
        else if r.email ≠ "" then
          if r.email ≠ email then
            (ValidateResult.failure "Code does not match this email. Use the email you requested access with.", db)
          else
            (ValidateResult.success r, db)
        else
          let r1 := { r with email := email }
          (ValidateResult.success r1,
           { db with codes := store db.codes (k_code code) r1 })

/-! ## Webhook and agent-run flow -/

/-- The outcome of the `requests.post` call inside `post_webhook`: either
a completed HTTP response or a raised exception (with `str(e)`). -/
inductive HttpOutcome where
  | response (status : Int) (text : String)
  | exception (msg : String)
  deriving Repr, DecidableEq

/-- `post_webhook` from `main.py`, as a function of the request's
outcome: it catches every exception and reports `(0, str(e))`. -/
def post_webhook : HttpOutcome → Int × String
  | HttpOutcome.response s t => (s, t)
  | HttpOutcome.exception m => (0, m)

/-- The credit gate of `render_agent` (`if user.credits <= 0: … return`):
`true` when the page refuses to run the agent. -/
def agent_out_of_credits (u : UserRec) : Bool :=
  u.credits ≤ 0

/-- The failure path of a run in `render_agent`:
`remaining_after = decrement_credit(email)` followed (because
`perplexity_brief` raised) by the refund
`update_user_credits(email, remaining_after + 1)`. -/
def agent_run_failed_refund {α : Type} (email : String)
    (now : PyDateTime) (db : DB α) : DB α :=
  let r := decrement_credit email now db
  update_user_credits email (r.1 + 1) now r.2

/-! ## Concrete fixtures (used by the closed witness theorems) -/

/-- Sunday 2026-01-11 (ISO week 2026W02), 12:00 noon. -/
def now0 : PyDateTime :=
  { ord := 739627, hour := 12, minute := 0, second := 0, microsecond := 0 }

/-- A user record with the two default free credits. -/
def wUser0 : UserRec :=
  { email := "bob@x.com", credits := 2, tier := "general",
    created_at := to_iso now0, last_login := to_iso now0 }

/-- A store holding only `wUser0`. -/
def wDBuser : DB Nat :=
  { users := store (fun _ => none) (k_user "bob@x.com") wUser0,
    codes := fun _ => none, histories := fun _ => none }

/-- An unbound seeded code record for week 2026W02. -/
def wCode0 : CodeRec :=
  { code := "REC-2026W02-7H3Q9A", email := "", tier := "recruiter",
    week_id := "2026W02",
    expires_at := to_iso (week_expiry_sunday_235959 now0),
    created_at := to_iso now0 }

/-- A store holding only `wCode0`. -/
def wDBcode : DB Nat :=
  { users := fun _ => none,
    codes := store (fun _ => none) (k_code "REC-2026W02-7H3Q9A") wCode0,
    histories := fun _ => none }

/-- Sunday 2026-01-18 (ISO week 2026W03), 12:00 noon. -/
def nowW3 : PyDateTime :=
  { ord := 739634, hour := 12, minute := 0, second := 0, microsecond := 0 }

/-- `wCode0` already bound to `alice@x.com`. -/
def wCodeBound : CodeRec :=
  { wCode0 with email := "alice@x.com" }

/-- A store holding only `wCodeBound`. -/
def wDBcodeBound : DB Nat :=
  { users := fun _ => none,
    codes := store (fun _ => none) (k_code "REC-2026W02-7H3Q9A") wCodeBound,
    histories := fun _ => none }

example : k_user " Bob@X.com " = "user:bob@x.com" := by decide
example : isoweekday { ord := 7, hour := 0, minute := 0, second := 0, microsecond := 0 } = 7 := by decide
example : isocalendar { ord := 739627, hour := 0, minute := 0, second := 0, microsecond := 0 } = (2026, 2, 7) := by decide
example : isocalendar { ord := 739617, hour := 0, minute := 0, second := 0, microsecond := 0 } = (2026, 1, 4) := by decide
example : isocalendar { ord := 737791, hour := 0, minute := 0, second := 0, microsecond := 0 } = (2020, 53, 5) := by decide
example : isocalendar { ord := 730121, hour := 0, minute := 0, second := 0, microsecond := 0 } = (1999, 52, 7) := by decide
example : isocalendar { ord := 7, hour := 0, minute := 0, second := 0, microsecond := 0 } = (1, 1, 7) := by decide

/-! ## Claim theorems -/

/-- C1: if a user's stored balance is `c ≥ 1` when an agent run starts and
the AI call raises, then after `decrement_credit` followed by the refund
`update_user_credits(email, remaining_after + 1)` the stored user record —
in particular its credit balance `c` — is exactly what it was before. -/
theorem failed_run_restores_credit_balance {α : Type} (email : String)
    (now : PyDateTime) (db : DB α) (u : UserRec)
    (hu : db.users (k_user email) = some u) (hc : 1 ≤ u.credits) :
    (agent_run_failed_refund email now db).users (k_user email) = some u := by
  cases u with
  | mk e c t ca ll =>
    have hc2 : 1 ≤ c := hc
    simp [agent_run_failed_refund, decrement_credit, update_user_credits,
      hu, store]
    omega

/-- Closed witness for C1. -/
theorem failed_run_restores_credit_balance_witness :
    (agent_run_failed_refund "bob@x.com" now0 wDBuser).users
      (k_user "bob@x.com") = some wUser0 :=
  failed_run_restores_credit_balance "bob@x.com" now0 wDBuser wUser0
    (by decide) (by decide)

/-- C4: on an existing record with credits `c`, `decrement_credit` stores
and returns `max 0 (c - 1)` (never negative); on a missing record it
builds one with `DEFAULT_FREE_CREDITS`, then stores and returns
`max 0 (DEFAULT_FREE_CREDITS - 1)`. -/
theorem decrement_credit_spec {α : Type} (email : String)
    (now : PyDateTime) (db : DB α) :
    (∀ u, db.users (k_user email) = some u →
      (decrement_credit email now db).1 = max 0 (u.credits - 1) ∧
      0 ≤ (decrement_credit email now db).1 ∧
      ((decrement_credit email now db).2).users (k_user email) =
        some { u with credits := max 0 (u.credits - 1) }) ∧
    (db.users (k_user email) = none →
      (decrement_credit email now db).1 = max 0 (DEFAULT_FREE_CREDITS - 1) ∧
      ((decrement_credit email now db).2).users (k_user email) =
        some { email := pyLower email,
               credits := max 0 (DEFAULT_FREE_CREDITS - 1),
               tier := "general", created_at := to_iso now,
               last_login := to_iso now }) := by
  constructor
  · intro u hu
    refine ⟨?_, ?_, ?_⟩ <;> simp [decrement_credit, hu, store]
  · intro h
    constructor <;> simp [decrement_credit, h, store, DEFAULT_FREE_CREDITS]

/-- Closed witness for C4. -/
theorem decrement_credit_spec_witness :
    (decrement_credit "bob@x.com" now0 wDBuser).1 = max 0 (wUser0.credits - 1) ∧
    (decrement_credit "bob@x.com" now0 (DB.mk (fun _ => none)
      (fun _ => none) (fun _ => none) : DB Nat)).1 =
      max 0 (DEFAULT_FREE_CREDITS - 1) := by
  constructor
  · exact ((decrement_credit_spec "bob@x.com" now0 wDBuser).1 wUser0
      (by decide)).1
  · exact ((decrement_credit_spec "bob@x.com" now0 _).2 rfl).1

/-- C6: on an email that already has a record, `ensure_user` changes only
`last_login` (and `tier`, exactly when the stored tier is empty and the
argument tier is non-empty); `credits`, `email`, `created_at` are
untouched, the returned record is the one stored under `k_user email`,
and no other key of the store changes. -/
theorem ensure_user_existing_frame {α : Type} (email tier : String)
    (now : PyDateTime) (db : DB α) (u : UserRec)
    (hu : db.users (k_user email) = some u) :
    ((ensure_user email tier now db).2).users (k_user email) =
      some (ensure_user email tier now db).1 ∧
    (ensure_user email tier now db).1.credits = u.credits ∧
    (ensure_user email tier now db).1.email = u.email ∧
    (ensure_user email tier now db).1.created_at = u.created_at ∧
    (ensure_user email tier now db).1.last_login = to_iso now ∧
    (ensure_user email tier now db).1.tier =
      (if tier ≠ "" ∧ u.tier = "" then tier else u.tier) ∧
    (∀ k, k ≠ k_user email →
      ((ensure_user email tier now db).2).users k = db.users k) ∧
    ((ensure_user email tier now db).2).codes = db.codes ∧
    ((ensure_user email tier now db).2).histories = db.histories := by
  by_cases ht : tier ≠ "" ∧ u.tier = ""
  · refine ⟨?_, ?_, ?_, ?_, ?_, ?_, ?_, ?_, ?_⟩ <;>
      simp [ensure_user, hu, store, ht]
    intro k hk
    simp [hk]
  · refine ⟨?_, ?_, ?_, ?_, ?_, ?_, ?_, ?_, ?_⟩ <;>
      simp [ensure_user, hu, store, ht]
    intro k hk
    simp [hk]

/-- Closed witness for C6. -/
theorem ensure_user_existing_frame_witness :
    (ensure_user "bob@x.com" "general" now0 wDBuser).1.credits =
      wUser0.credits :=
  (ensure_user_existing_frame "bob@x.com" "general" now0 wDBuser wUser0
    (by decide)).2.1

/-- C7: `post_webhook` never raises: a completed request yields the pair
(status code, body text) and a raised exception yields (0, message). -/
theorem post_webhook_spec :
    ∀ (s : Int) (t m : String),
      post_webhook (HttpOutcome.response s t) = (s, t) ∧
      post_webhook (HttpOutcome.exception m) = (0, m) :=
  fun _ _ _ => ⟨rfl, rfl⟩

/-- C8: `ensure_user` on a fresh email creates a record with exactly
`DEFAULT_FREE_CREDITS = 2` credits, the given tier, the lowercased email
and `created_at = last_login`; the agent-page gate (`credits <= 0`) then
allows exactly two runs: it is open at 2 and at 1, and closed once two
`decrement_credit` calls have brought the balance to 0. -/
theorem ensure_user_new_user_two_free_runs {α : Type} (email tier : String)
    (now now1 now2 : PyDateTime) (db : DB α)
    (h : db.users (k_user email) = none) :
    DEFAULT_FREE_CREDITS = 2 ∧
    (ensure_user email tier now db).1 =
      { email := pyLower email, credits := 2, tier := tier,
        created_at := to_iso now, last_login := to_iso now } ∧
    ((ensure_user email tier now db).2).users (k_user email) =
      some (ensure_user email tier now db).1 ∧
    (ensure_user email tier now db).1.created_at =
      (ensure_user email tier now db).1.last_login ∧
    agent_out_of_credits (ensure_user email tier now db).1 = false ∧
    (decrement_credit email now1 (ensure_user email tier now db).2).1 = 1 ∧
    ((decrement_credit email now1 (ensure_user email tier now db).2).2).users
        (k_user email) =
      some { (ensure_user email tier now db).1 with credits := 1 } ∧
    agent_out_of_credits
      { (ensure_user email tier now db).1 with credits := 1 } = false ∧
    (decrement_credit email now2
      (decrement_credit email now1 (ensure_user email tier now db).2).2).1 = 0 ∧
    agent_out_of_credits
      { (ensure_user email tier now db).1 with credits := 0 } = true := by
  refine ⟨rfl, ?_, ?_, ?_, ?_, ?_, ?_, ?_, ?_, ?_⟩ <;>
    simp [ensure_user, decrement_credit, agent_out_of_credits, h, store,
      DEFAULT_FREE_CREDITS]

/-- Closed witness for C8. -/
theorem ensure_user_new_user_two_free_runs_witness :
    (ensure_user "bob@x.com" "general" now0
      (DB.mk (fun _ => none) (fun _ => none) (fun _ => none) : DB Nat)).1 =
      { email := pyLower "bob@x.com", credits := 2, tier := "general",
        created_at := to_iso now0, last_login := to_iso now0 } :=
  (ensure_user_new_user_two_free_runs "bob@x.com" "general" now0 now0 now0
    _ rfl).2.1

/-- C9: after `save_history`, the stored history has the new payload
first, length at most 25, and its tail is the first at-most-24 entries of
the previous history in order — so `length ≤ 25` is preserved by every
call. -/
theorem save_history_spec {α : Type} (email : String) (payload : α)
    (db : DB α) :
    (get_history email (save_history email payload db)).head? =
      some payload ∧
    (get_history email (save_history email payload db)).length ≤ 25 ∧
    (get_history email (save_history email payload db)).tail =
      (get_history email db).take 24 := by
  refine ⟨?_, ?_, ?_⟩ <;>
    simp [get_history, save_history, store, List.take_succ_cons]

/-- C2: `validate_login_code` fails whenever the stored record's
`week_id` differs from the ISO week id of the current time; fails
whenever the record's `expires_at` parses to a datetime strictly earlier
than the current time; and on a code with no record it fails ("Invalid
code.") and leaves the store unchanged. -/
theorem validate_login_code_failure_conditions {α : Type}
    (email code : String) (now : PyDateTime) (db : DB α) :
    (∀ r, db.codes (k_code (pyStrip code)) = some r →
      r.week_id ≠ iso_week_id now →
      (validate_login_code email code now db).1.isFailure = true ∧
      (validate_login_code email code now db).2 = db) ∧
    (∀ r e, db.codes (k_code (pyStrip code)) = some r →
      parse_iso r.expires_at = some e → dtLt e now = true →
      (validate_login_code email code now db).1.isFailure = true ∧
      (validate_login_code email code now db).2 = db) ∧
    (db.codes (k_code (pyStrip code)) = none →
      validate_login_code email code now db =
        (ValidateResult.failure "Invalid code.", db)) := by
  refine ⟨?_, ?_, ?_⟩
  · intro r hr hw
    simp [validate_login_code, hr, hw, ValidateResult.isFailure]
  · intro r e hr he hexp
    by_cases hw : r.week_id = iso_week_id now
    · simp [validate_login_code, hr, hw, he, hexp, ValidateResult.isFailure]
    · simp [validate_login_code, hr, hw, ValidateResult.isFailure]
  · intro h
    simp [validate_login_code, h]

/-- Closed witness for C2. -/
theorem validate_login_code_failure_conditions_witness :
    (validate_login_code "bob@x.com" "REC-2026W02-7H3Q9A" nowW3
      wDBcode).1.isFailure = true :=
  ((validate_login_code_failure_conditions "bob@x.com" "REC-2026W02-7H3Q9A"
      nowW3 wDBcode).1 wCode0 (by decide) (by decide)).1

/-- C3: for a stored code record in the current ISO week and not past its
expiry: an unbound record (empty email) validates successfully and is
re-stored with its email set to the lowercased, stripped login email; a
record bound to a different email fails with the store unchanged; a
record bound to the same normalized email succeeds without modifying the
store. -/
theorem validate_login_code_binding_rules {α : Type} (email code : String)
    (now : PyDateTime) (db : DB α) (r : CodeRec) (e : PyDateTime)
    (hr : db.codes (k_code (pyStrip code)) = some r)
    (hw : r.week_id = iso_week_id now)
    (he : parse_iso r.expires_at = some e)
    (hexp : dtLt e now = false) :
    (r.email = "" →
      (validate_login_code email code now db).1 =
        ValidateResult.success { r with email := pyStrip (pyLower email) } ∧
      ((validate_login_code email code now db).2).codes
          (k_code (pyStrip code)) =
        some { r with email := pyStrip (pyLower email) } ∧
      (∀ k, k ≠ k_code (pyStrip code) →
        ((validate_login_code email code now db).2).codes k = db.codes k) ∧
      ((validate_login_code email code now db).2).users = db.users ∧
      ((validate_login_code email code now db).2).histories =
        db.histories) ∧
    (r.email ≠ "" → r.email ≠ pyStrip (pyLower email) →
      (validate_login_code email code now db).1.isFailure = true ∧
      (validate_login_code email code now db).2 = db) ∧
    (r.email ≠ "" → r.email = pyStrip (pyLower email) →
      validate_login_code email code now db =
        (ValidateResult.success r, db)) := by
  refine ⟨?_, ?_, ?_⟩
  · intro he0
    refine ⟨?_, ?_, ?_, ?_, ?_⟩ <;>
      simp [validate_login_code, hr, hw, he, hexp, he0, store]
    intro k hk
    simp [hk]
  · intro hne hdiff
    simp [validate_login_code, hr, hw, he, hexp, hne, hdiff,
      ValidateResult.isFailure]
  · intro hne hsame
    simp [validate_login_code, hr, hw, he, hexp, hne, hsame]
    intro h0
    exact absurd (hsame.trans h0) hne

/-- Closed witness for C3 (unbound record binds; bound record with a
different email fails). -/
theorem validate_login_code_binding_rules_witness :
    (validate_login_code "Bob@X.com " "REC-2026W02-7H3Q9A" now0
        wDBcode).1 =
      ValidateResult.success
        { wCode0 with email := pyStrip (pyLower "Bob@X.com ") } ∧
    (validate_login_code "bob@x.com" "REC-2026W02-7H3Q9A" now0
        wDBcodeBound).1.isFailure = true := by
  constructor
  · exact ((validate_login_code_binding_rules "Bob@X.com "
      "REC-2026W02-7H3Q9A" now0 wDBcode wCode0
      (week_expiry_sunday_235959 now0) (by decide) (by decide) (by decide)
      (by decide)).1 (by decide)).1
  · exact ((validate_login_code_binding_rules "bob@x.com"
      "REC-2026W02-7H3Q9A" now0 wDBcodeBound wCodeBound
      (week_expiry_sunday_235959 now0) (by decide) (by decide) (by decide)
      (by decide)).2.1 (by decide) (by decide)).1

/-! ## Lemmas about the seeding fold (for C10) -/

/-- `seedStep` skips a code whose key is already in the store. -/
theorem seedStep_skip {α : Type} (w : String) (e n : PyDateTime)
    (acc : Nat × DB α) (p : String × String) (v : CodeRec)
    (h : acc.2.codes (k_code p.1) = some v) :
    seedStep w e n acc p = acc := by
  simp [seedStep, h]

/-- `seedStep` never changes an existing binding. -/
theorem seedStep_preserves_some {α : Type} (w : String) (e n : PyDateTime)
    (acc : Nat × DB α) (p : String × String) (k : String) (r : CodeRec)
    (h : acc.2.codes k = some r) :
    ((seedStep w e n acc p).2).codes k = some r := by
  cases hm : acc.2.codes (k_code p.1) with
  | some v => simp [seedStep, hm, h]
  | none =>
    have hk : k ≠ k_code p.1 := by
      intro hkk
      rw [hkk, hm] at h
      cases h
    simp [seedStep, hm, store, hk, h]

/-- The whole seeding fold never changes an existing binding. -/
theorem seed_foldl_preserves_some {α : Type} (w : String)
    (e n : PyDateTime) (l : List (String × String)) (acc : Nat × DB α)
    (k : String) (r : CodeRec) (h : acc.2.codes k = some r) :
    ((List.foldl (seedStep w e n) acc l).2).codes k = some r := by
  induction l generalizing acc with
  | nil => simpa using h
  | cons p t ih =>
    exact ih (seedStep w e n acc p) (seedStep_preserves_some w e n acc p k r h)

/-- `seedStep` only touches the `code:` namespace. -/
theorem seedStep_users_histories {α : Type} (w : String)
    (e n : PyDateTime) (acc : Nat × DB α) (p : String × String) :
    ((seedStep w e n acc p).2).users = acc.2.users ∧
    ((seedStep w e n acc p).2).histories = acc.2.histories := by
  cases hm : acc.2.codes (k_code p.1) with
  | some v => simp [seedStep, hm]
  | none => simp [seedStep, hm]

/-- The seeding fold only touches the `code:` namespace. -/
theorem seed_foldl_users_histories {α : Type} (w : String)
    (e n : PyDateTime) (l : List (String × String)) (acc : Nat × DB α) :
    ((List.foldl (seedStep w e n) acc l).2).users = acc.2.users ∧
    ((List.foldl (seedStep w e n) acc l).2).histories = acc.2.histories := by
  induction l generalizing acc with
  | nil => exact ⟨rfl, rfl⟩
  | cons p t ih =>
    refine ⟨?_, ?_⟩
    · rw [List.foldl_cons, (ih (seedStep w e n acc p)).1,
        (seedStep_users_histories w e n acc p).1]
    · rw [List.foldl_cons, (ih (seedStep w e n acc p)).2,
        (seedStep_users_histories w e n acc p).2]

/-- `seedStep` leaves every other `code:` key untouched. -/
theorem seedStep_codes_other {α : Type} (w : String) (e n : PyDateTime)
    (acc : Nat × DB α) (p : String × String) (k : String)
    (hk : k ≠ k_code p.1) :
    ((seedStep w e n acc p).2).codes k = acc.2.codes k := by
  cases hm : acc.2.codes (k_code p.1) with
  | some v => simp [seedStep, hm]
  | none => simp [seedStep, hm, store, hk]

/-- The seeding fold leaves keys outside the seeded list untouched. -/
theorem seed_foldl_codes_other {α : Type} (w : String) (e n : PyDateTime)
    (l : List (String × String)) (acc : Nat × DB α) (k : String)
    (hk : ∀ p ∈ l, k ≠ k_code p.1) :
    ((List.foldl (seedStep w e n) acc l).2).codes k = acc.2.codes k := by
  induction l generalizing acc with
  | nil => rfl
  | cons p t ih =>
    rw [List.foldl_cons, ih (seedStep w e n acc p)
      (fun q hq => hk q (List.mem_cons_of_mem p hq)),
      seedStep_codes_other w e n acc p k (hk p (List.mem_cons_self p t))]

/-- After the seeding fold every processed key is present. -/
theorem seed_foldl_present {α : Type} (w : String) (e n : PyDateTime)
    (l : List (String × String)) (acc : Nat × DB α) :
    ∀ p ∈ l, (((List.foldl (seedStep w e n) acc l).2).codes
      (k_code p.1)).isSome := by
  induction l generalizing acc with
  | nil => intro p hp; cases hp
  | cons q t ih =>
    intro p hp
    rcases List.mem_cons.mp hp with rfl | hpt
    · rw [List.foldl_cons]
      cases hm : acc.2.codes (k_code p.1) with
      | some v =>
        rw [seed_foldl_preserves_some w e n t (seedStep w e n acc p)
          (k_code p.1) v (by rw [seedStep_skip w e n acc p v hm]; exact hm)]
        rfl
      | none =>
        rw [seed_foldl_preserves_some w e n t (seedStep w e n acc p)
          (k_code p.1)
          { code := p.1, email := "", tier := p.2, week_id := w,
            expires_at := to_iso e, created_at := to_iso n }
          (by simp [seedStep, hm, store])]
        rfl
    · exact ih (seedStep w e n acc q) p hpt

/-- If every processed key is already present the fold is the identity. -/
theorem seed_foldl_skip_all {α : Type} (w : String) (e n : PyDateTime)
    (l : List (String × String)) (acc : Nat × DB α)
    (h : ∀ p ∈ l, (acc.2.codes (k_code p.1)).isSome) :
    List.foldl (seedStep w e n) acc l = acc := by
  induction l generalizing acc with
  | nil => rfl
  | cons p t ih =>
    have hp := h p (List.mem_cons_self p t)
    cases hm : acc.2.codes (k_code p.1) with
    | none => rw [hm] at hp; cases hp
    | some v =>
      rw [List.foldl_cons, seedStep_skip w e n acc p v hm]
      exact ih acc (fun q hq => h q (List.mem_cons_of_mem p hq))

/-- A key absent before the fold and belonging to the processed list gets
exactly the unbound record for the current week. -/
theorem seed_foldl_creates {α : Type} (w : String) (e n : PyDateTime)
    (l : List (String × String)) (acc : Nat × DB α)
    (hnd : l.Pairwise (fun a b => k_code a.1 ≠ k_code b.1)) :
    ∀ p ∈ l, acc.2.codes (k_code p.1) = none →
      ((List.foldl (seedStep w e n) acc l).2).codes (k_code p.1) =
        some { code := p.1, email := "", tier := p.2, week_id := w,
               expires_at := to_iso e, created_at := to_iso n } := by
  induction l generalizing acc with
  | nil => intro p hp; cases hp
  | cons q t ih =>
    intro p hp habs
    rcases List.mem_cons.mp hp with rfl | hpt
    · rw [List.foldl_cons]
      exact seed_foldl_preserves_some w e n t (seedStep w e n acc p)
        (k_code p.1) _ (by simp [seedStep, habs, store])
    · have hne : k_code p.1 ≠ k_code q.1 :=
        fun hx => (List.pairwise_cons.mp hnd).1 p hpt hx.symm
      rw [List.foldl_cons]
      refine ih (seedStep w e n acc q) (List.pairwise_cons.mp hnd).2 p hpt ?_
      rw [seedStep_codes_other w e n acc q (k_code p.1) hne]
      exact habs

/-- The fold's counter counts exactly the processed keys that were absent
at the start (processed keys pairwise distinct). -/
theorem seed_foldl_count {α : Type} (w : String) (e n : PyDateTime)
    (l : List (String × String)) (c : Nat) (db : DB α)
    (hnd : l.Pairwise (fun a b => k_code a.1 ≠ k_code b.1)) :
    (List.foldl (seedStep w e n) (c, db) l).1 =
      c + l.countP (fun p => (db.codes (k_code p.1)).isNone) := by
  induction l generalizing c db with
  | nil => simp
  | cons q t ih =>
    rw [List.foldl_cons]
    cases hm : db.codes (k_code q.1) with
    | some v =>
      rw [seedStep_skip w e n (c, db) q v hm,
        ih c db (List.pairwise_cons.mp hnd).2, List.countP_cons]
      simp [hm]
    | none =>
      rcases hsq : seedStep w e n (c, db) q with ⟨c1, db1⟩
      have hc1 : c1 = c + 1 := by
        have h2 := congrArg Prod.fst hsq
        simpa [seedStep, hm] using h2.symm
      have hdb1 : ∀ p ∈ t, db1.codes (k_code p.1) = db.codes (k_code p.1) := by
        intro p hp
        have hne : k_code p.1 ≠ k_code q.1 :=
          fun hx => (List.pairwise_cons.mp hnd).1 p hp hx.symm
        have h3 := seedStep_codes_other w e n (c, db) q (k_code p.1) hne
        rw [hsq] at h3
        exact h3
      have hcnt : t.countP (fun p => (db1.codes (k_code p.1)).isNone) =
          t.countP (fun p => (db.codes (k_code p.1)).isNone) :=
        List.countP_congr (fun p hp => by rw [hdb1 p hp])
      rw [ih c1 db1 (List.pairwise_cons.mp hnd).2, hcnt,
        List.countP_cons, hc1]
      simp [hm]
      omega

/-- C10: `seed_demo_codes_if_missing` never overwrites an existing code
record; it touches only the `SEED_CODES` keys, creating for each key that
is absent an unbound record (empty email) carrying the current week's id
and expiry; it returns the number of records it created; and a second
consecutive run creates 0 records and leaves the store unchanged. -/
theorem seed_demo_codes_spec {α : Type} (now : PyDateTime) (db : DB α) :
    (∀ k r, db.codes k = some r →
      ((seed_demo_codes_if_missing now db).2).codes k = some r) ∧
    (∀ k, (∀ p ∈ SEED_CODES, k ≠ k_code p.1) →
      ((seed_demo_codes_if_missing now db).2).codes k = db.codes k) ∧
    ((seed_demo_codes_if_missing now db).2).users = db.users ∧
    ((seed_demo_codes_if_missing now db).2).histories = db.histories ∧
    (∀ p ∈ SEED_CODES, db.codes (k_code p.1) = none →
      ((seed_demo_codes_if_missing now db).2).codes (k_code p.1) =
        some { code := p.1, email := "", tier := p.2,
               week_id := iso_week_id now,
               expires_at := to_iso (week_expiry_sunday_235959 now),
               created_at := to_iso now }) ∧
    (seed_demo_codes_if_missing now db).1.1 =
      SEED_CODES.countP (fun p => (db.codes (k_code p.1)).isNone) ∧
    (∀ now2, seed_demo_codes_if_missing now2
        ((seed_demo_codes_if_missing now db).2) =
      ((0, iso_week_id now2, to_iso (week_expiry_sunday_235959 now2)),
       (seed_demo_codes_if_missing now db).2)) := by
  have hnd : SEED_CODES.Pairwise (fun a b => k_code a.1 ≠ k_code b.1) := by
    decide
  refine ⟨?_, ?_, ?_, ?_, ?_, ?_, ?_⟩
  · intro k r h
    exact seed_foldl_preserves_some _ _ _ SEED_CODES (0, db) k r h
  · intro k hk
    exact seed_foldl_codes_other _ _ _ SEED_CODES (0, db) k hk
  · exact (seed_foldl_users_histories _ _ _ SEED_CODES (0, db)).1
  · exact (seed_foldl_users_histories _ _ _ SEED_CODES (0, db)).2
  · intro p hp habs
    exact seed_foldl_creates _ _ _ SEED_CODES (0, db) hnd p hp habs
  · have h := seed_foldl_count (iso_week_id now)
      (week_expiry_sunday_235959 now) now SEED_CODES 0 db hnd
    simpa [seed_demo_codes_if_missing] using h
  · intro now2
    simp only [seed_demo_codes_if_missing]
    rw [seed_foldl_skip_all (iso_week_id now2)
      (week_expiry_sunday_235959 now2) now2 SEED_CODES
      (0, (List.foldl (seedStep (iso_week_id now)
        (week_expiry_sunday_235959 now) now) (0, db) SEED_CODES).2)
      (fun p hp => seed_foldl_present (iso_week_id now)
        (week_expiry_sunday_235959 now) now SEED_CODES (0, db) p hp)]

/-- Closed witness for C10: running the seeder over a store already
holding `wCode0` leaves that record intact, and it creates the 8 missing
records (the count skips the present one). -/
theorem seed_demo_codes_spec_witness :
    ((seed_demo_codes_if_missing now0 wDBcode).2).codes
      (k_code "REC-2026W02-7H3Q9A") = some wCode0 ∧
    (seed_demo_codes_if_missing now0 wDBcode).1.1 =
      SEED_CODES.countP
        (fun p => (wDBcode.codes (k_code p.1)).isNone) := by
  constructor
  · exact (seed_demo_codes_spec now0 wDBcode).1
      (k_code "REC-2026W02-7H3Q9A") wCode0 (by decide)
  · exact (seed_demo_codes_spec now0 wDBcode).2.2.2.2.2.1

/-! ## Calendar lemmas (for C5) -/

/-- `daysBeforeYear` evaluated on a year decomposed along the Gregorian
400/100/4-year cycles. -/
theorem dby_eval (y A B C D : Int) (hy : y = 400*A + 100*B + 4*C + D + 1)
    (hB0 : 0 ≤ B) (hB : B ≤ 3) (hC0 : 0 ≤ C) (hC : C ≤ 24)
    (hD0 : 0 ≤ D) (hD : D ≤ 3) :
    daysBeforeYear y = 146097*A + 36524*B + 1461*C + 365*D := by
  subst hy
  unfold daysBeforeYear
  omega

/-- Correctness of `yearOfOrd`: ordinal `o` lies in the year it returns. -/
theorem yearOfOrd_spec (o : Int) :
    daysBeforeYear (yearOfOrd o) < o ∧ o ≤ daysBeforeYear (yearOfOrd o + 1) := by
  obtain ⟨a, b, c, d, r, hsum, hb0, hb4, hc0, hc24, hd0, hd4, hr0, hr365,
      hw1, hw2, hw3⟩ :
      ∃ a b c d r : Int,
        o - 1 = 146097*a + 36524*b + 1461*c + 365*d + r ∧
        0 ≤ b ∧ b ≤ 4 ∧ 0 ≤ c ∧ c ≤ 24 ∧ 0 ≤ d ∧ d ≤ 4 ∧ 0 ≤ r ∧ r < 365 ∧
        36524*b + 1461*c + 365*d + r < 146097 ∧
        1461*c + 365*d + r < 36524 ∧
        365*d + r < 1461 :=
    ⟨(o-1) / 146097, (o-1) % 146097 / 36524, (o-1) % 146097 % 36524 / 1461,
     (o-1) % 146097 % 36524 % 1461 / 365, (o-1) % 146097 % 36524 % 1461 % 365,
     by omega⟩
  have ea : (o-1) / 146097 = a := by omega
  have eb : (o-1) % 146097 / 36524 = b := by omega
  have ec : (o-1) % 146097 % 36524 / 1461 = c := by omega
  have ed : (o-1) % 146097 % 36524 % 1461 / 365 = d := by omega
  have hYeq : yearOfOrd o =
      if d = 4 ∨ b = 4 then 400*a + 100*b + 4*c + d
      else 400*a + 100*b + 4*c + d + 1 := by
    simp only [yearOfOrd, ea, eb, ec, ed]
    by_cases h4 : d = 4 ∨ b = 4
    · have hbo : (d == 4 || b == 4) = true := by
        rcases h4 with h | h <;> simp [h]
      simp only [hbo, if_true, if_pos h4]
      omega
    · have hbo : (d == 4 || b == 4) = false := by
        push_neg at h4
        simp [h4.1, h4.2]
      simp only [hbo, Bool.false_eq_true, if_false, if_neg h4]
      omega
  rw [hYeq]
  split_ifs with hfix
  · rcases hfix with hdd | hbb
    · have e1 := dby_eval (400*a+100*b+4*c+d) a b c 3 (by omega) hb0
        (by omega) hc0 (by omega) (by omega) (by omega)
      have e2 := dby_eval (400*a+100*b+4*c+d+1) a b (c+1) 0 (by omega) hb0
        (by omega) (by omega) (by omega) (by omega) (by omega)
      rw [e1, e2]
      omega
    · have e1 := dby_eval (400*a+100*b+4*c+d) a 3 24 3 (by omega)
        (by omega) (by omega) (by omega) (by omega) (by omega) (by omega)
      have e2 := dby_eval (400*a+100*b+4*c+d+1) (a+1) 0 0 0 (by omega)
        (by omega) (by omega) (by omega) (by omega) (by omega) (by omega)
      rw [e1, e2]
      omega
  · have e1 := dby_eval (400*a+100*b+4*c+d+1) a b c d (by omega) hb0
      (by omega) hc0 hc24 hd0 (by omega)
    rcases lt_or_le d 3 with hd3 | hd3
    · have e2 := dby_eval (400*a+100*b+4*c+d+1+1) a b c (d+1) (by omega)
        hb0 (by omega) hc0 hc24 (by omega) (by omega)
      rw [e1, e2]
      omega
    · have hd3' : d = 3 := by omega
      rcases lt_or_le c 24 with hc23 | hc23
      · have e2 := dby_eval (400*a+100*b+4*c+d+1+1) a b (c+1) 0 (by omega)
          hb0 (by omega) (by omega) (by omega) (by omega) (by omega)
        rw [e1, e2]
        omega
      · have hc24' : c = 24 := by omega
        rcases lt_or_le b 3 with hb2 | hb3
        · have e2 := dby_eval (400*a+100*b+4*c+d+1+1) a (b+1) 0 0 (by omega)
            (by omega) (by omega) (by omega) (by omega) (by omega) (by omega)
          rw [e1, e2]
          omega
        · have e2 := dby_eval (400*a+100*b+4*c+d+1+1) (a+1) 0 0 0 (by omega)
            (by omega) (by omega) (by omega) (by omega) (by omega) (by omega)
          rw [e1, e2]
          omega

/-- `isoweek1monday y` is a Monday within 3 days of January 1st of `y`. -/
theorem isoweek1monday_spec (y : Int) :
    daysBeforeYear y - 2 ≤ isoweek1monday y ∧
    isoweek1monday y ≤ daysBeforeYear y + 4 ∧
    isoweek1monday y % 7 = 1 := by
  simp only [isoweek1monday]
  split_ifs with h <;> omega

/-- `daysBeforeYear` grows by at least 365 per year. -/
theorem dby_mono (y1 y2 : Int) (h : y1 < y2) :
    daysBeforeYear y1 + 365 ≤ daysBeforeYear y2 := by
  unfold daysBeforeYear
  omega

/-- `isoweek1monday` is monotone. -/
theorem w1m_mono_le (y1 y2 : Int) (h : y1 ≤ y2) :
    isoweek1monday y1 ≤ isoweek1monday y2 := by
  rcases eq_or_lt_of_le h with rfl | hlt
  · exact le_refl _
  · have h1 := isoweek1monday_spec y1
    have h2 := isoweek1monday_spec y2
    have h3 := dby_mono y1 y2 hlt
    omega

/-- The algorithmic `isocalendarOrd` returns the unique ISO year whose
week-1 Monday range contains `o`, and the week index within it. -/
theorem isocalendarOrd_sandwich (o : Int) :
    ∃ y w d, isocalendarOrd o = (y, w, d) ∧
      isoweek1monday y ≤ o ∧ o < isoweek1monday (y + 1) ∧
      w = (o - isoweek1monday y) / 7 + 1 := by
  have hspec := yearOfOrd_spec o
  have hw1mY := isoweek1monday_spec (yearOfOrd o)
  have hw1mYm := isoweek1monday_spec (yearOfOrd o - 1)
  have hw1mYp := isoweek1monday_spec (yearOfOrd o + 1)
  have hw1mYpp := isoweek1monday_spec (yearOfOrd o + 2)
  have hm1 := dby_mono (yearOfOrd o - 1) (yearOfOrd o) (by omega)
  have hm2 := dby_mono (yearOfOrd o) (yearOfOrd o + 1) (by omega)
  have hm3 := dby_mono (yearOfOrd o + 1) (yearOfOrd o + 2) (by omega)
  simp only [isocalendarOrd]
  split_ifs with h1 h2
  · refine ⟨yearOfOrd o - 1, _, _, rfl, ?_, ?_, rfl⟩
    · omega
    · rw [show yearOfOrd o - 1 + 1 = yearOfOrd o by ring]
      omega
  · simp only [Bool.and_eq_true, decide_eq_true_eq] at h2
    refine ⟨yearOfOrd o + 1, 1, _, rfl, ?_, ?_, ?_⟩
    · omega
    · rw [show yearOfOrd o + 1 + 1 = yearOfOrd o + 2 by ring]
      omega
    · omega
  · simp only [Bool.and_eq_true, decide_eq_true_eq, not_and, not_le] at h2
    refine ⟨yearOfOrd o, _, _, rfl, ?_, ?_, rfl⟩
    · omega
    · rcases lt_or_le ((o - isoweek1monday (yearOfOrd o)) / 7) 52 with hc | hc
      · omega
      · have hlt := h2 hc
        omega

/-- The Sunday closing the Mon–Sun block of `o` has the same ISO year and
week as `o`. -/
theorem isocalendarOrd_sunday_same_yw (o : Int) :
    (isocalendarOrd (o + (6 - (o + 6) % 7))).1 = (isocalendarOrd o).1 ∧
    (isocalendarOrd (o + (6 - (o + 6) % 7))).2.1 = (isocalendarOrd o).2.1 := by
  obtain ⟨y, w, d, hEq, hlo, hhi, hw⟩ := isocalendarOrd_sandwich o
  obtain ⟨y2, w2, d2, hEq2, hlo2, hhi2, hw2⟩ :=
    isocalendarOrd_sandwich (o + (6 - (o + 6) % 7))
  have hmod := isoweek1monday_spec (y + 1)
  have hmodY := isoweek1monday_spec y
  have hSy : isoweek1monday y ≤ o + (6 - (o + 6) % 7) ∧
      o + (6 - (o + 6) % 7) < isoweek1monday (y + 1) := by
    constructor
    · omega
    · omega
  have hy2 : y2 = y := by
    rcases lt_trichotomy y2 y with hlt | hEqy | hgt
    · have := w1m_mono_le (y2 + 1) y (by omega)
      omega
    · exact hEqy
    · have := w1m_mono_le (y + 1) y2 (by omega)
      omega
  subst hy2
  rw [hEq, hEq2]
  refine ⟨rfl, ?_⟩
  show w2 = w
  rw [hw, hw2]
  omega

/-- `dtLt` unfolded to the lexicographic order it decides. -/
theorem dtLt_iff (a b : PyDateTime) :
    dtLt a b = true ↔
      (a.ord < b.ord ∨ (a.ord = b.ord ∧ (a.hour < b.hour ∨ (a.hour = b.hour ∧
        (a.minute < b.minute ∨ (a.minute = b.minute ∧ (a.second < b.second ∨
          (a.second = b.second ∧ a.microsecond < b.microsecond)))))))) := by
  simp [dtLt]

/-- C5 counterexample: at the valid datetime Sunday 2026-01-11
23:59:59.000001 the computed expiry is that same Sunday 23:59:59.000000,
which is strictly EARLIER than the input — refuting "this expiry is never
earlier than dt". -/
theorem week_expiry_earlier_counterexample :
    (PyDateTime.mk 739627 23 59 59 1).validTime ∧
    isoweekday (PyDateTime.mk 739627 23 59 59 1) = 7 ∧
    dtLt (week_expiry_sunday_235959 (PyDateTime.mk 739627 23 59 59 1))
      (PyDateTime.mk 739627 23 59 59 1) = true :=
  ⟨by decide, by decide, by decide⟩

/-- C5 (amended): for every datetime `dt`, `week_expiry_sunday_235959 dt`
is the Sunday of the same ISO week as `dt` (same ISO year and week, ISO
weekday 7) with time 23:59:59 and zero microseconds; the expiry is not
earlier than `dt` unless `dt` itself lies on that Sunday strictly after
23:59:59.000000 (nonzero microseconds in the final second of the week);
and every code record made by `create_code_for_email` carries
`week_id = iso_week_id(now)` and `expires_at` equal to that end-of-week
expiry, stored under its own key. -/
theorem week_expiry_sunday_235959_spec (dt : PyDateTime) :
    isoweekday (week_expiry_sunday_235959 dt) = 7 ∧
    (week_expiry_sunday_235959 dt).hour = 23 ∧
    (week_expiry_sunday_235959 dt).minute = 59 ∧
    (week_expiry_sunday_235959 dt).second = 59 ∧
    (week_expiry_sunday_235959 dt).microsecond = 0 ∧
    (isocalendar (week_expiry_sunday_235959 dt)).1 = (isocalendar dt).1 ∧
    (isocalendar (week_expiry_sunday_235959 dt)).2.1 =
      (isocalendar dt).2.1 ∧
    iso_week_id (week_expiry_sunday_235959 dt) = iso_week_id dt ∧
    (dt.validTime →
      ¬(isoweekday dt = 7 ∧ dt.hour = 23 ∧ dt.minute = 59 ∧
        dt.second = 59 ∧ 0 < dt.microsecond) →
      dtLt (week_expiry_sunday_235959 dt) dt = false) ∧
    (∀ (α : Type) (email tier token : String) (db : DB α),
      (create_code_for_email email tier dt token db).1.week_id =
        iso_week_id dt ∧
      (create_code_for_email email tier dt token db).1.expires_at =
        to_iso (week_expiry_sunday_235959 dt) ∧
      ((create_code_for_email email tier dt token db).2).codes
          (k_code (create_code_for_email email tier dt token db).1.code) =
        some (create_code_for_email email tier dt token db).1) := by
  have harg : (week_expiry_sunday_235959 dt).ord =
      dt.ord + (6 - (dt.ord + 6) % 7) := by
    simp only [week_expiry_sunday_235959, isoweekday]
    ring
  have hyw := isocalendarOrd_sunday_same_yw dt.ord
  have hiso1 : (isocalendar (week_expiry_sunday_235959 dt)).1 =
      (isocalendar dt).1 := by
    simp only [isocalendar, harg]
    exact hyw.1
  have hiso2 : (isocalendar (week_expiry_sunday_235959 dt)).2.1 =
      (isocalendar dt).2.1 := by
    simp only [isocalendar, harg]
    exact hyw.2
  refine ⟨?_, rfl, rfl, rfl, rfl, hiso1, hiso2, ?_, ?_, ?_⟩
  · simp only [isoweekday, week_expiry_sunday_235959]
    omega
  · simp only [iso_week_id, hiso1, hiso2]
  · intro hv hns
    obtain ⟨hv1, hv2, hv3, hv4, hv5, hv6, hv7, hv8⟩ := hv
    have e0 : (week_expiry_sunday_235959 dt).ord =
        dt.ord + (7 - ((dt.ord + 6) % 7 + 1)) := rfl
    have e1 : (week_expiry_sunday_235959 dt).hour = 23 := rfl
    have e2 : (week_expiry_sunday_235959 dt).minute = 59 := rfl
    have e3 : (week_expiry_sunday_235959 dt).second = 59 := rfl
    have e4 : (week_expiry_sunday_235959 dt).microsecond = 0 := rfl
    have hwd : isoweekday dt = (dt.ord + 6) % 7 + 1 := rfl
    apply Bool.eq_false_iff.mpr
    intro htrue
    rw [dtLt_iff] at htrue
    rcases htrue with hx | ⟨hx, hy⟩
    · omega
    · rcases hy with hh | ⟨hh, hy⟩
      · omega
      · rcases hy with hm | ⟨hm, hy⟩
        · omega
        · rcases hy with hs | ⟨hs, hmu⟩
          · omega
          · exact hns ⟨by omega, by omega, by omega, by omega, by omega⟩
  · intro α email tier token db
    refine ⟨rfl, rfl, ?_⟩
    simp [create_code_for_email, store]

/-- Closed witness for C5: at noon on Sunday 2026-01-11 the expiry is not
earlier than now, and the expiry's ISO week id agrees. -/
theorem week_expiry_sunday_235959_spec_witness :
    dtLt (week_expiry_sunday_235959 now0) now0 = false ∧
    iso_week_id (week_expiry_sunday_235959 now0) = iso_week_id now0 := by
  constructor
  · exact (week_expiry_sunday_235959_spec now0).2.2.2.2.2.2.2.2.1
      (by decide) (by decide)
  · exact (week_expiry_sunday_235959_spec now0).2.2.2.2.2.2.2.1
